import Mathlib

/-!
Verification of API Switchboard's pagination-inference, rate-governor,
bulk-transport, enrichment and spreadsheet-merge logic.

The definitions below are a shallow embedding of the JavaScript source:
  * `src/unnamed/part_005` (CurlInput: pagination inference from request
    params, `detectCursorFromResponse`, `extractRateLimitInfo`, the
    `executeFetch` retry loop and its pagination refinement),
  * `src/unnamed/part_006` (BulkTransportModal: `browserFetch`,
    `extractDataArray`, `flattenObject`, `startTransport`,
    `startEnrichment`, `fetchIdsFromSheet`),
  * `src/src/renderer/store/appStore.js` (initial pagination / rate-limit
    state, `resetPagination`),
  * `scripts/google-apps-script-receiver.js` (`mergeData`, `handleGetIds`).

JavaScript values flowing through these functions (JSON response bodies,
sheet cells, flattened rows) are modelled by the inductive `JVal`.
JSON bodies produced by `response.json()` never contain `undefined` or
`Date` objects, but `undefined` is kept in the model because the code
tests for it explicitly.  Objects are association lists; the source
obtains them from `JSON.parse`, which never yields duplicate keys, so
first-key lookup is faithful.
-/

namespace Switchboard

/-- Model of a JavaScript/JSON value. -/
inductive JVal where
  | vNull
  | vUndef
  | vBool (b : Bool)
  | vNum (n : Int)
  | vStr (s : String)
  | vArr (elems : List JVal)
  | vObj (fields : List (String × JVal))
  deriving Repr

/-- JavaScript truthiness for the values of the model (`NaN` is not
modelled; the source never branches on it). -/
def jsTruthy : JVal → Bool
  | .vNull => false
  | .vUndef => false
  | .vBool b => b
  | .vNum n => n != 0
  | .vStr s => s != ""
  | .vArr _ => true
  | .vObj _ => true

/-- First-match lookup in an association list (JS property access on an
object literal). -/
def lookupField : List (String × JVal) → String → Option JVal
  | [], _ => none
  | (k, v) :: rest, key => if k = key then some v else lookupField rest key

/-- `value[key]` guarded by `typeof value === 'object' && key in value`:
only objects expose the (non-numeric) keys the pagination patterns probe;
arrays expose none of them. -/
def objGet : JVal → String → Option JVal
  | .vObj fields, k => lookupField fields k
  | _, _ => none

/-- The inner traversal loop of `detectCursorFromResponse`: follow a path
of keys, failing as soon as a step is not an object carrying the key. -/
def walkPath : JVal → List String → Option JVal
  | v, [] => some v
  | v, k :: ks =>
    match objGet v k with
    | some v1 => walkPath v1 ks
    | none => none

/-- `Object.entries` on an array: index keys in order. -/
def enumFields (elems : List JVal) : List (String × JVal) :=
  elems.enum.map (fun p => (toString p.1, p.2))

/-- JSON string escaping (quotes and backslashes; enough for the string
literals these claims touch). -/
def jsonEscape (s : String) : String :=
  s.foldl
    (fun acc c =>
      if c = '"' then acc ++ "\\\""
      else if c = '\\' then acc ++ "\\\\"
      else acc.push c)
    ""

mutual
/-- Model of `JSON.stringify` (part_006 `flattenObject` stringifies array
values; `mergeData` stringifies object cells).  Only the fact that the
output is a string matters to the claims; the encoding follows the JSON
format, with `undefined` object entries skipped as `JSON.stringify` does. -/
def jsonStringify : JVal → String
  | .vNull => "null"
  | .vUndef => "null"
  | .vBool b => if b then "true" else "false"
  | .vNum n => toString n
  | .vStr s => "\"" ++ jsonEscape s ++ "\""
  | .vArr xs => "[" ++ String.intercalate "," (jsonStringifyList xs) ++ "]"
  | .vObj fields => "\x7b" ++ String.intercalate "," (jsonStringifyFields fields) ++ "\x7d"

def jsonStringifyList : List JVal → List String
  | [] => []
  | x :: rest => jsonStringify x :: jsonStringifyList rest

def jsonStringifyFields : List (String × JVal) → List String
  | [] => []
  | (k, v) :: rest =>
    match v with
    | .vUndef => jsonStringifyFields rest
    | v1 => ("\"" ++ jsonEscape k ++ "\":" ++ jsonStringify v1) :: jsonStringifyFields rest
end

mutual
/-- JavaScript `String(x)` coercion, as used by `mergeData` and
`handleGetIds` on sheet cells and key values. -/
def jsToString : JVal → String
  | .vNull => "null"
  | .vUndef => "undefined"
  | .vBool b => if b then "true" else "false"
  | .vNum n => toString n
  | .vStr s => s
  | .vObj _ => "[object Object]"
  | .vArr xs => jsArrJoin xs

/-- `Array.prototype.toString` = `join(",")`, with `null`/`undefined`
elements rendered empty. -/
def jsArrJoin : List JVal → String
  | [] => ""
  | x :: rest =>
    let s := match x with
      | .vNull => ""
      | .vUndef => ""
      | x1 => jsToString x1
    if rest.isEmpty then s else s ++ "," ++ jsArrJoin rest
end

/-- Whitespace characters relevant to JS `trim` / `parseInt` here. -/
def isJsSpace (c : Char) : Bool :=
  c == ' ' || c == '\t' || c == '\n' || c == '\r'

/-- JavaScript `s.trim()`. -/
def jsTrim (s : String) : String :=
  ⟨((s.data.dropWhile isJsSpace).reverse.dropWhile isJsSpace).reverse⟩

/-- Substring containment over characters. -/
def charsContain (sub : List Char) : List Char → Bool
  | [] => sub.isEmpty
  | c :: rest => sub.isPrefixOf (c :: rest) || charsContain sub rest

/-- JavaScript `s.includes(pat)`. -/
def jsIncludes (s pat : String) : Bool :=
  charsContain pat.toList s.toList

/-- JavaScript `parseInt(s, 10)` restricted to the non-negative decimal
inputs the UI produces (`none` models `NaN`): skip leading whitespace,
read leading digits. -/
def jsParseInt (s : String) : Option Nat :=
  let digits := (s.data.dropWhile isJsSpace).takeWhile Char.isDigit
  if digits.isEmpty then none
  else some (digits.foldl (fun acc c => acc * 10 + (c.toNat - '0'.toNat)) 0)

/-- `parseInt(v, 10) || d`: `NaN` or `0` falls back to the default. -/
def jsParseIntOr (v : Option String) (d : Nat) : Nat :=
  match v with
  | some s =>
    match jsParseInt s with
    | some n => if n = 0 then d else n
    | none => d
  | none => d

/-! ## Cursor detection from response bodies (part_005 lines 12-26 and
226-266; mirrored in part_006 lines 8-47) -/

/-- `CURSOR_RESPONSE_PATHS`: the fixed, ordered pattern list.  Each entry
is the key path plus the `urlField` flag. -/
def CURSOR_RESPONSE_PATHS : List (List String × Bool) :=
  [ (["paging", "next"], true),
    (["next"], true),
    (["next_page"], true),
    (["links", "next"], true),
    (["_links", "next", "href"], true),
    (["meta", "next_cursor"], false),
    (["cursor", "next"], false),
    (["next_cursor"], false),
    (["has_more"], false),
    (["nextPageToken"], false),
    (["pagination", "next_url"], true),
    (["pagination", "next_cursor"], false) ]

/-- Result of `detectCursorFromResponse`: `isUrl` mirrors both the
`type: 'url' | 'cursor'` tag and the `isUrl` flag of the JS object;
`path` is `pattern.path.join('.')`. -/
structure CursorInfo where
  isUrl : Bool
  value : JVal
  path : String
  deriving Repr

/-- `data.data?.[data.data.length - 1]?.id`, then the `if (lastId)`
truthiness test (the Stripe-style `has_more` special case). -/
def dataLastId (data : JVal) : Option JVal :=
  match objGet data "data" with
  | some (.vArr xs) =>
    match xs.getLast? with
    | some lastItem =>
      match objGet lastItem "id" with
      | some idv => if jsTruthy idv then some idv else none
      | none => none
    | none => none
  | _ => none

/-- The pattern loop of `detectCursorFromResponse`: first matching
pattern in priority order wins; `has_more` is a boolean flag handled
specially; only non-empty strings are accepted as cursor/URL values. -/
def detectLoop (data : JVal) : List (List String × Bool) → Option CursorInfo
  | [] => none
  | (path, urlField) :: rest =>
    match walkPath data path with
    | none => detectLoop data rest
    | some value =>
      if jsTruthy value then
        if path.getLast? = some "has_more" then
          match value with
          | .vBool true =>
            match dataLastId data with
            | some lastId =>
              some { isUrl := false, value := lastId, path := String.intercalate "." path }
            | none => detectLoop data rest
          | _ => detectLoop data rest
        else
          match value with
          | .vStr s =>
            if s.length > 0 then
              some { isUrl := urlField, value := .vStr s, path := String.intercalate "." path }
            else detectLoop data rest
          | _ => detectLoop data rest
      else detectLoop data rest

/-- `detectCursorFromResponse(data)` (part_005 lines 226-266).  Non-object
data is rejected up front (`!data || typeof data !== 'object'`). -/
def detectCursorFromResponse (data : JVal) : Option CursorInfo :=
  match data with
  | .vObj _ => detectLoop data CURSOR_RESPONSE_PATHS
  | .vArr _ => detectLoop data CURSOR_RESPONSE_PATHS
  | _ => none

/-- `extractDataArray` (part_006 lines 49-58): the response body may be
the array itself, or wrap it under the first matching key of a fixed
ranked list. -/
def extractDataArray (data : JVal) : Option (List JVal) :=
  match data with
  | .vArr xs => some xs
  | .vObj fields => extractFromKeys fields
      ["candidates", "data", "results", "items", "records", "entries",
       "users", "list", "rows", "members", "jobs"]
  | _ => none
where
  extractFromKeys (fields : List (String × JVal)) : List String → Option (List JVal)
    | [] => none
    | k :: ks =>
      match lookupField fields k with
      | some (.vArr xs) => some xs
      | _ => extractFromKeys fields ks

/-! ## Pagination state (appStore.js lines 55-78) and inference
(part_005 `handleParse` lines 43-117, `executeFetch` refinement
lines 454-510) -/

/-- `pagination.mode`: `'none' | 'page' | 'cursor'`. -/
inductive PagMode where
  | none
  | page
  | cursor
  deriving Repr, DecidableEq

/-- An entry of the `prevCursors` stack: `{url}` or `{cursor}`. -/
inductive CursorEntry where
  | url (u : JVal)
  | cursor (c : JVal)
  deriving Repr

/-- The pagination slice of the app store.  `nextCursor` / `nextPageUrl`
hold the detected values (`null` is `Option.none`); cursor values can be
non-strings via the `has_more` synthetic cursor, hence `JVal`. -/
structure PaginationState where
  currentPage : Nat
  perPage : Nat
  pageParamName : String
  perPageParamName : String
  hasDetected : Bool
  mode : PagMode
  nextCursor : Option JVal
  prevCursors : List CursorEntry
  cursorParamName : Option String
  nextPageUrl : Option JVal
  deriving Repr

/-- The initial store value, also the value written by `resetPagination`
and `resetAll` (appStore.js lines 56-78, 123-127). -/
def initPagination : PaginationState :=
  { currentPage := 1
    perPage := 10
    pageParamName := "page"
    perPageParamName := "per_page"
    hasDetected := false
    mode := .none
    nextCursor := none
    prevCursors := []
    cursorParamName := none
    nextPageUrl := none }

def PAGE_PARAM_NAMES : List String :=
  ["page", "p", "pageNumber", "page_number", "pageNo", "pg"]

def OFFSET_PARAM_NAMES : List String :=
  ["offset", "skip", "start"]

def CURSOR_PARAM_NAMES : List String :=
  ["cursor", "after", "since_id", "next_cursor", "starting_after",
   "next_token", "continuation"]

def PER_PAGE_PARAM_NAMES : List String :=
  ["per_page", "perPage", "page_size", "pageSize", "limit", "count",
   "size", "rows", "maxResults", "max_results"]

/-- First-match lookup among the parsed request's query parameters. -/
def lookupParam : List (String × String) → String → Option String
  | [], _ => none
  | (k, v) :: rest, key => if k = key then some v else lookupParam rest key

/-- The pagination auto-detection of `handleParse` (part_005 lines
49-112).  Each branch is a `setPagination` merge into the previous
state; a branch that sets no field leaves the previous value (e.g. the
cursor branch does not touch `pageParamName`). -/
def handleParsePagination (p : PaginationState) (params : List (String × String)) :
    PaginationState :=
  let paramKeys := params.map Prod.fst
  let detectedPageParam := paramKeys.find? (fun k => PAGE_PARAM_NAMES.contains k)
  let detectedPerPageParam := paramKeys.find? (fun k => PER_PAGE_PARAM_NAMES.contains k)
  let detectedCursorParam := paramKeys.find? (fun k => CURSOR_PARAM_NAMES.contains k)
  let detectedOffsetParam := paramKeys.find? (fun k => OFFSET_PARAM_NAMES.contains k)
  let perPageOf : Option String → Nat := fun pp =>
    match pp with
    | some name => jsParseIntOr (lookupParam params name) 10
    | none => 10
  match detectedCursorParam with
  | some cp =>
    { p with
      mode := .cursor
      cursorParamName := some cp
      perPageParamName := detectedPerPageParam.getD "limit"
      perPage := perPageOf detectedPerPageParam
      hasDetected := true
      currentPage := 1
      nextCursor := none
      prevCursors := []
      nextPageUrl := none }
  | none =>
    match detectedPageParam with
    | some pgp =>
      { p with
        mode := .page
        pageParamName := pgp
        perPageParamName := detectedPerPageParam.getD "per_page"
        currentPage := jsParseIntOr (lookupParam params pgp) 1
        perPage := perPageOf detectedPerPageParam
        hasDetected := true
        nextCursor := none
        prevCursors := []
        cursorParamName := none
        nextPageUrl := none }
    | none =>
      match detectedOffsetParam with
      | some op =>
        { p with
          mode := .page
          pageParamName := op
          perPageParamName := detectedPerPageParam.getD "limit"
          currentPage := 1
          perPage := perPageOf detectedPerPageParam
          hasDetected := true
          nextCursor := none
          prevCursors := []
          cursorParamName := none
          nextPageUrl := none }
      | none =>
        match detectedPerPageParam with
        | some ppp =>
          { p with
            mode := .cursor
            perPageParamName := ppp
            perPage := jsParseIntOr (lookupParam params ppp) 10
            hasDetected := true
            currentPage := 1
            nextCursor := none
            prevCursors := []
            cursorParamName := none
            nextPageUrl := none }
        | none => p

/-- `guessCursorParamName` (part_005 lines 536-545). -/
def guessCursorParamName (responsePath : String) : String :=
  if responsePath = "meta.next_cursor" then "cursor"
  else if responsePath = "cursor.next" then "cursor"
  else if responsePath = "next_cursor" then "cursor"
  else if responsePath = "nextPageToken" then "pageToken"
  else if responsePath = "pagination.next_cursor" then "cursor"
  else "cursor"

/-- `pageOrDirection` passed to `executeFetch`: a page number, `'next'`,
`'prev'`, or `undefined` (initial fetch). -/
inductive FetchDir where
  | initial
  | next
  | prev
  | pageNum (n : Nat)
  deriving Repr, DecidableEq

/-- The current page's entry pushed on the `prevCursors` stack when a
cursor was found (part_005 lines 460-464): `nextPageUrl` wins over
`nextCursor`, falling back to the original request URL. -/
def currentEntry (p : PaginationState) (originalUrl : String) : CursorEntry :=
  match p.nextPageUrl with
  | some u => .url u
  | none =>
    match p.nextCursor with
    | some c => .cursor c
    | none => .url (.vStr originalUrl)

/-- Same, but in the no-cursor-found branch (part_005 lines 497-501)
the fallback is `null` instead of the original URL. -/
def currentEntryOpt (p : PaginationState) : Option CursorEntry :=
  match p.nextPageUrl with
  | some u => some (.url u)
  | none =>
    match p.nextCursor with
    | some c => some (.cursor c)
    | none => none

/-- The pagination refinement performed by `executeFetch` after a
successful fetch with a body (part_005 lines 454-510): detect a cursor;
if found, set exactly one of `nextPageUrl` / `nextCursor` and clear the
other, possibly guessing `cursorParamName`, and maintain
`currentPage` / `prevCursors` per direction; if none is found while in
cursor mode, clear both signals (last page). -/
def executeFetchRefine (p : PaginationState) (dir : FetchDir) (data : JVal)
    (originalUrl : String) : PaginationState :=
  match detectCursorFromResponse data with
  | some ci =>
    let base := { p with hasDetected := true, mode := PagMode.cursor }
    let base :=
      if ci.isUrl then
        { base with nextPageUrl := some ci.value, nextCursor := none }
      else
        { base with
          nextCursor := some ci.value
          nextPageUrl := none
          cursorParamName :=
            match p.cursorParamName with
            | none => some (guessCursorParamName ci.path)
            | some c => some c }
    if dir = FetchDir.next then
      { base with
        currentPage := p.currentPage + 1
        prevCursors := p.prevCursors ++ [currentEntry p originalUrl] }
    else if dir = FetchDir.prev then base
    else { base with currentPage := 1, prevCursors := [] }
  | none =>
    if p.mode = PagMode.cursor then
      let p1 := { p with nextCursor := none, nextPageUrl := none }
      if dir = FetchDir.next then
        match currentEntryOpt p with
        | some e =>
          { p1 with
            currentPage := p.currentPage + 1
            prevCursors := p.prevCursors ++ [e] }
        | none => p1
      else p1
    else p

/-- The `'prev'`-branch store update before the fetch (part_005 lines
346-384): pop the cursor stack, decrement `currentPage` with floor 1. -/
def prevNavUpdate (p : PaginationState) : PaginationState :=
  { p with
    prevCursors := p.prevCursors.dropLast
    currentPage := max 1 (p.currentPage - 1) }

/-- Pagination states reachable through the store: the initial value,
`resetPagination`, `handleParse` inference, the pre-fetch navigation
updates, and post-fetch response refinement (a failed fetch leaves the
state unchanged, which needs no constructor). -/
inductive PagReachable : PaginationState → Prop where
  | init : PagReachable initPagination
  | reset (p : PaginationState) : PagReachable p → PagReachable initPagination
  | parse (p : PaginationState) (params : List (String × String)) :
      PagReachable p → PagReachable (handleParsePagination p params)
  | refine (p : PaginationState) (dir : FetchDir) (data : JVal) (u : String) :
      PagReachable p → PagReachable (executeFetchRefine p dir data u)
  | prevNav (p : PaginationState) : PagReachable p → PagReachable (prevNavUpdate p)
  | pageNav (p : PaginationState) (n : Nat) :
      PagReachable p → PagReachable { p with currentPage := n }

/-! ## Fetch results and the rate governor
(part_005 `browserFetch` lines 552-613 / part_006 lines 67-102,
`extractRateLimitInfo` lines 271-284, `executeFetch` retry loop
lines 414-452; main.js `execute-request` lines 52-81) -/

/-- The result object every fetch path produces.  Note that both
fetchers mark every structured HTTP response `success: true`
(`browserFetch` builds it from any `fetch` response; the Electron
handler uses axios with `validateStatus: () => true`); `success: false`
only arises from a thrown transport-level error. -/
structure FetchResult where
  success : Bool
  status : Option Nat := none
  headers : List (String × String) := []
  data : JVal := JVal.vNull
  error : Option String := none
  code : Option String := none
  deriving Repr

/-- The underlying network event a fetch attempt can observe. -/
inductive NetOutcome where
  | response (status : Nat) (headers : List (String × String)) (body : JVal)
  | exception (msg : String)
  deriving Repr

/-- Result shaping of part_006's `browserFetch` (lines 67-102): any HTTP
response becomes `success: true` with its status; a thrown error becomes
`success: false` with the raw `error.message` and
`code: 'BROWSER_FETCH_ERROR'` (unlike part_005's copy, the message is
not rewritten to start with `Network error:`). -/
def browserFetchModel : NetOutcome → FetchResult
  | .response status headers body =>
    { success := true, status := some status, headers := headers, data := body }
  | .exception msg =>
    { success := false, error := some msg, code := some "BROWSER_FETCH_ERROR" }

/-- `a || b || c` over header lookups: the first present, non-empty
(truthy) value wins. -/
def firstTruthyHeader (headers : List (String × String)) : List String → Option String
  | [] => none
  | n :: rest =>
    match lookupParam headers n with
    | some v => if v = "" then firstTruthyHeader headers rest else some v
    | none => firstTruthyHeader headers rest

/-- The quota hints `extractRateLimitInfo` builds.  The source stores
`parseInt` of each value; a key is added exactly when the raw header
string is truthy, so the raw strings are kept here (the parsed numbers
never influence control flow). -/
structure RateLimitQuota where
  limit : Option String := none
  remaining : Option String := none
  reset : Option String := none
  deriving Repr

/-- `extractRateLimitInfo(headers)` (part_005 lines 271-284): probe the
known header-name variants; return `null` when no key was added. -/
def extractRateLimitInfo (headers : List (String × String)) : Option RateLimitQuota :=
  let limit := firstTruthyHeader headers
    ["x-ratelimit-limit", "x-rate-limit-limit", "ratelimit-limit"]
  let remaining := firstTruthyHeader headers
    ["x-ratelimit-remaining", "x-rate-limit-remaining", "ratelimit-remaining"]
  let reset := firstTruthyHeader headers
    ["x-ratelimit-reset", "x-rate-limit-reset", "ratelimit-reset", "retry-after"]
  if limit.isSome ∨ remaining.isSome ∨ reset.isSome then
    some { limit := limit, remaining := remaining, reset := reset }
  else none

/-- Outcome of one iteration of the `executeFetch` retry loop with
respect to the stored `retryCount`: retry the same request with the
incremented count, or finish the loop leaving the given count in the
store. -/
inductive LoopOutcome where
  | retry (retryCount : Nat)
  | done (retryCount : Nat)
  deriving Repr, DecidableEq

/-- The result-classification step of `executeFetch` (part_005 lines
429-452): a 429 within budget retries with `retryCount + 1`; otherwise
the loop completes, and `retryCount` is set to `0` only inside
`if (rateLimitInfo)` — i.e. only when the response carried recognized
rate-limit headers. -/
def fetchLoopBody (retryCount maxRetries : Nat) (result : FetchResult) : LoopOutcome :=
  if result.status = some 429 ∧ retryCount < maxRetries then
    .retry (retryCount + 1)
  else
    match extractRateLimitInfo result.headers with
    | some _ => .done 0
    | none => .done retryCount

/-! ## The bulk transport loop (part_006 `startTransport` lines 718-990),
specialized to the configuration the claims exercise: page-number
pagination with bulk mode `'all'` or `'pages'` (`maxPages` is `9999` for
`'all'`).  The cursor-mode request building and the `'dateRange'` filter
are separate branches not taken in these runs; waits (`sleep`,
pause polling) only affect timing; `fetchPage` gives the settled result
of the per-page fetch-with-retry block (lines 830-864). -/

/-- The fetch-error branch (lines 868-877): the message that gets
logged, and whether `reachedEnd` is set (the job stops) — the source
tests the *message text* for `'Network error'` / `'BROWSER_FETCH_ERROR'`. -/
def transportFetchErrorStep (result : FetchResult) : String × Bool :=
  let errMsg := result.error.getD "Unknown fetch error"
  (errMsg, jsIncludes errMsg "Network error" || jsIncludes errMsg "BROWSER_FETCH_ERROR")

/-- Progress counters of a bulk transport run: `pagesFetched` is the
final `pageNum`, `batchSizes` the item counts of the successfully sent
pages in order, `itemsDelivered` / `pagesDelivered` the
`totalItems` / `totalPages` counters, `errors` the error log. -/
structure TransportState where
  pagesFetched : Nat
  batchSizes : List Nat
  itemsDelivered : Nat
  pagesDelivered : Nat
  errors : List (Nat × String)
  deriving Repr, DecidableEq

def initTransportState : TransportState :=
  { pagesFetched := 0, batchSizes := [], itemsDelivered := 0,
    pagesDelivered := 0, errors := [] }

/-- The page loop of `startTransport` in page-number mode.  `fuel` is the
remaining page budget (`maxPages - pageNum`); each iteration increments
`pageNum`, fetches, and either logs a fetch error (stopping only when
`transportFetchErrorStep` says so), stops on an empty/absent item array,
or sends the batch to the sink (a sink error is logged but the loop
continues) and stops when the page held strictly fewer than `perPage`
items. -/
def transportGo (fetchPage : Nat → FetchResult) (sink : List JVal → Option String)
    (perPage : Nat) : Nat → Nat → TransportState → TransportState
  | 0, _, st => st
  | fuel + 1, pageNum, st =>
    let pageNum1 := pageNum + 1
    let result := fetchPage pageNum1
    if result.success = false then
      let step := transportFetchErrorStep result
      let st1 := { st with
        pagesFetched := pageNum1
        errors := st.errors ++ [(pageNum1, step.1)] }
      if step.2 then st1
      else transportGo fetchPage sink perPage fuel pageNum1 st1
    else
      match extractDataArray result.data with
      | none => { st with pagesFetched := pageNum1 }
      | some [] => { st with pagesFetched := pageNum1 }
      | some items =>
        let st1 :=
          match sink items with
          | none =>
            { st with
              pagesFetched := pageNum1
              batchSizes := st.batchSizes ++ [items.length]
              itemsDelivered := st.itemsDelivered + items.length
              pagesDelivered := st.pagesDelivered + 1 }
          | some errMsg =>
            { st with
              pagesFetched := pageNum1
              errors := st.errors ++ [(pageNum1, errMsg)] }
        if items.length < perPage then st1
        else transportGo fetchPage sink perPage fuel pageNum1 st1

/-- A full `startTransport` run in page-number mode (`maxPages = 9999`
models bulk mode `'all'`). -/
def runTransportPage (fetchPage : Nat → FetchResult) (sink : List JVal → Option String)
    (perPage maxPages : Nat) : TransportState :=
  transportGo fetchPage sink perPage maxPages 0 initTransportState

/-! ## Enrichment engine (part_006 `flattenObject` lines 301-318,
`fetchIdsFromSheet` lines 200-252, `startEnrichment` lines 437-687;
receiver `handleGetIds` lines 80-160) -/

/-- `prefix ? prefix + '.' + key : key`. -/
def joinKey (pfx key : String) : String :=
  if pfx = "" then key else pfx ++ "." ++ key

mutual
/-- What one field of `flattenObject` contributes (part_006 lines
306-315), given its dot-joined full key: arrays become a `_count` column
plus a JSON string; plain objects recurse (response bodies come from
`JSON.parse`, so the `instanceof Date` escape never fires);
`null`/`undefined` leaves become `''`; every other leaf is kept as is. -/
def flattenValue (fullKey : String) : JVal → List (String × JVal)
  | .vArr xs =>
    [(fullKey ++ "_count", .vNum xs.length), (fullKey, .vStr (jsonStringify (.vArr xs)))]
  | .vObj fs => flattenFields fs fullKey
  | .vNull => [(fullKey, .vStr "")]
  | .vUndef => [(fullKey, .vStr "")]
  | leaf => [(fullKey, leaf)]

/-- The `Object.entries` loop of `flattenObject` (part_006 lines
305-317). -/
def flattenFields : List (String × JVal) → String → List (String × JVal)
  | [], _ => []
  | (key, value) :: rest, pfx =>
    flattenValue (joinKey pfx key) value ++ flattenFields rest pfx
end

/-- `flattenObject(obj, prefix)` (part_006 lines 301-318): non-objects
flatten to nothing; `Object.entries` of an array yields index keys.
The JS result object is modelled as the ordered list of entries written
into it (later duplicates would overwrite in JS; the flattened keys the
claims touch are distinct). -/
def flattenObject (v : JVal) (pfx : String) : List (String × JVal) :=
  match v with
  | .vObj fields => flattenFields fields pfx
  | .vArr elems => flattenFields (enumFields elems) pfx
  | _ => []

/-- The per-key loop `for (let i = resumeFrom; i < idList.length; i++)`
of `startEnrichment` (line 518), collecting the keys processed in order
(no cancellation during the run). -/
def processFrom (idList : List String) (i : Nat) : List String :=
  if h : i < idList.length then
    idList.get ⟨i, h⟩ :: processFrom idList (i + 1)
  else []
  termination_by idList.length - i

/-- One `getIds` answer from the receiver (`handleGetIds`, receiver
lines 80-160) for a sheet column containing `column` (blank and
`undefined`/`null` cells already absent, as the claims assume):
the requested slice, `hasMore`, and `nextStart`. -/
def getIdsAnswer (column : List String) (start limit : Nat) :
    List String × Bool × Nat :=
  let total := column.length
  let readCount := min limit (total - start)
  ((column.drop start).take readCount, start + readCount < total, start + readCount)

/-- The paging loop of `fetchIdsFromSheet` (part_006 lines 200-252,
without a `maxIds` cap — the enrichment claims run with the default
`Infinity`): count the `getIds` calls and accumulate the ids. -/
def fetchIdsLoop (column : List String) : Nat → Nat → List String → Nat × List String
  | 0, _, acc => (0, acc)
  | fuel + 1, start, acc =>
    let ans := getIdsAnswer column start 500
    let acc1 := acc ++ ans.1
    if ans.2.1 then
      let rec1 := fetchIdsLoop column fuel ans.2.2 acc1
      (rec1.1 + 1, rec1.2)
    else (1, acc1)

def fetchIdsFromSheet (column : List String) : Nat × List String :=
  fetchIdsLoop column (column.length + 1) 0 []

/-- Observable shape of a `startEnrichment` run for the resume claim:
how many `getIds` requests were issued, the id list used, and the keys
the per-key loop processed. -/
structure EnrichRun where
  keyFetchCalls : Nat
  idList : List String
  processedKeys : List String
  deriving Repr, DecidableEq

/-- The key-acquisition phase plus per-key loop of `startEnrichment`
(part_006 lines 480-524): a resume (`resumeFrom > 0`) with a cached,
non-empty `idList` reuses the cache and issues no `getIds` call;
otherwise the ids are fetched from the sheet. -/
def startEnrichmentModel (sheetColumn : List String) (cachedIdList : List String)
    (resumeFrom : Nat) : EnrichRun :=
  if resumeFrom > 0 ∧ 0 < cachedIdList.length then
    { keyFetchCalls := 0
      idList := cachedIdList
      processedKeys := processFrom cachedIdList resumeFrom }
  else
    let fetched := fetchIdsFromSheet sheetColumn
    { keyFetchCalls := fetched.1
      idList := fetched.2
      processedKeys := processFrom fetched.2 resumeFrom }

/-- How `startEnrichment` classifies one key's settled fetch result
(part_006 lines 586-623). -/
inductive EnrichOutcome where
  | skip404
  | errorLogged (msg : String)
  | merged (row : List (String × JVal))
  deriving Repr

/-- The per-key result handling of `startEnrichment` (lines 586-623):
the 404 skip and the error log live under `if (!result || !result.success)`;
successful results are flattened — an extracted non-empty array is
wrapped under the endpoint name with `count`/`items`, an object body is
flattened directly, anything else contributes only the key column. -/
def enrichResultStep (keyColumn id endpointName : String) (result : FetchResult) :
    EnrichOutcome :=
  if result.success = false then
    if result.status = some 404 then .skip404
    else
      .errorLogged (result.error.getD
        ("HTTP " ++ (match result.status with
          | some s => toString s
          | none => "unknown")))
  else
    match extractDataArray result.data with
    | some (x :: xs) =>
      .merged ((keyColumn, .vStr id) ::
        flattenObject
          (.vObj [(endpointName,
            .vObj [("count", .vNum (x :: xs).length), ("items", .vArr (x :: xs))])]) "")
    | _ =>
      match result.data with
      | .vObj fields => .merged ((keyColumn, .vStr id) :: flattenObject (.vObj fields) "")
      | .vArr elems => .merged ((keyColumn, .vStr id) :: flattenObject (.vArr elems) "")
      | _ => .merged [(keyColumn, .vStr id)]

/-! ## Merge-by-key sink write (receiver `mergeData`, lines 317-437).
A sheet is its header row plus data rows; `getLastColumn` is the header
width (the receiver itself always writes headers spanning every used
column).  `sheet.getRange(r, c).setValue(v)` on a matched row updates the
cell in place, creating blank cells as Sheets does when the column is new. -/

structure Sheet where
  headers : List JVal
  rows : List (List JVal)
  deriving Repr

/-- `Object.entries`-style view used by `mergeData`'s
`typeof item === 'object' && item !== null` tests. -/
def objEntries : JVal → Option (List (String × JVal))
  | .vObj fields => some fields
  | .vArr elems => some (enumFields elems)
  | _ => none

/-- `setValue` conversion (lines 428-432): objects are JSON-stringified,
`undefined`/`null` become `""`. -/
def toCellValue : JVal → JVal
  | .vObj fs => .vStr (jsonStringify (.vObj fs))
  | .vArr xs => .vStr (jsonStringify (.vArr xs))
  | .vNull => .vStr ""
  | .vUndef => .vStr ""
  | v => v

/-- Pad a row with blank cells up to the given length. -/
def padTo (row : List JVal) (len : Nat) : List JVal :=
  row ++ List.replicate (len - row.length) (.vStr "")

/-- Write one cell of a row (0-based column), padding as needed. -/
def setCell (row : List JVal) (c : Nat) (v : JVal) : List JVal :=
  (padTo row (c + 1)).set c v

/-- Write one cell of the row list (0-based row index). -/
def updateRows (rows : List (List JVal)) (r c : Nat) (v : JVal) : List (List JVal) :=
  match rows, r with
  | [], _ => []
  | row :: rest, 0 => setCell row c v :: rest
  | row :: rest, r1 + 1 => row :: updateRows rest r1 c v

/-- A valid key per the `keyMap` filter (line 355). -/
def validKey (key : String) : Bool :=
  key != "" && key != "undefined" && key != "null"

/-- Step 2 (lines 347-358): build the key → 1-indexed sheet row map.
JS assignment overwrites, so builds are prepended and lookup finds the
most recent (last) row for a duplicated key. -/
def buildKeyMap (rows : List (List JVal)) (keyColIndex : Nat) : List (String × Nat) :=
  rows.enum.foldl
    (fun m p =>
      let key := jsTrim (jsToString (p.2.getD keyColIndex (.vStr "")))
      if validKey key then (key, p.1 + 2) :: m else m)
    []

/-- Step 3 (lines 360-383): field names of the incoming objects that are
neither the key column nor an existing (trimmed) header, deduplicated in
order of first appearance. -/
def collectNewKeys (headers : List JVal) (keyColumn : String) (dataArray : List JVal) :
    List String :=
  dataArray.foldl
    (fun acc item =>
      match objEntries item with
      | none => acc
      | some fields =>
        fields.foldl
          (fun acc2 kv =>
            if kv.1 = keyColumn then acc2
            else if headers.any (fun h => jsTrim (jsToString h) = kv.1) then acc2
            else if acc2.contains kv.1 then acc2
            else acc2 ++ [kv.1])
          acc)
    []

/-- `String(mItem[keyColumn] || "")` (line 405). -/
def itemKeyString (fields : List (String × JVal)) (keyColumn : String) : String :=
  match lookupField fields keyColumn with
  | some v => if jsTruthy v then jsToString v else ""
  | none => ""

/-- The inner field-write loop of step 5 (lines 416-433): for each
non-key field present in the matched item, find its column among the
full headers and write the converted value into the matched row. -/
def writeFields (fields : List (String × JVal)) (keyColumn : String)
    (fullHeaders : List String) (rowIndex : Nat) (rows : List (List JVal)) :
    List (List JVal) :=
  match fields with
  | [] => rows
  | (k, v) :: rest =>
    if k = keyColumn then writeFields rest keyColumn fullHeaders rowIndex rows
    else
      match fullHeaders.findIdx? (fun h => h = k) with
      | none => writeFields rest keyColumn fullHeaders rowIndex rows
      | some colIdx =>
        writeFields rest keyColumn fullHeaders rowIndex
          (updateRows rows (rowIndex - 2) colIdx (toCellValue v))

/-- Step 5 (lines 398-434): count matched / not-found items and apply
the writes; non-object items are skipped without counting. -/
def mergeItems (keyColumn : String) (keyMap : List (String × Nat))
    (fullHeaders : List String) : List JVal → List (List JVal) →
    Nat × Nat × List (List JVal)
  | [], rows => (0, 0, rows)
  | item :: rest, rows =>
    match objEntries item with
    | none => mergeItems keyColumn keyMap fullHeaders rest rows
    | some fields =>
      let itemKey := jsTrim (itemKeyString fields keyColumn)
      match keyMap.lookup itemKey with
      | none =>
        let out := mergeItems keyColumn keyMap fullHeaders rest rows
        (out.1, out.2.1 + 1, out.2.2)
      | some rowIndex =>
        let rows1 := writeFields fields keyColumn fullHeaders rowIndex rows
        let out := mergeItems keyColumn keyMap fullHeaders rest rows1
        (out.1 + 1, out.2.1, out.2.2)

/-- Result of `mergeData`: the early-return messages, or the final
matched / not-found counts (reported in the status string of line 436),
the appended header names, and the updated sheet. -/
inductive MergeOutcome where
  | failure (msg : String)
  | ok (matched notFound : Nat) (newKeys : List String) (sheet : Sheet)
  deriving Repr

/-- `mergeData(sheet, dataArray, keyColumn)` (receiver lines 317-437). -/
def mergeData (sheet : Sheet) (dataArray : List JVal) (keyColumn : String) :
    MergeOutcome :=
  if dataArray.isEmpty then .failure "Empty data array - nothing to merge"
  else
    let lastRow := if sheet.headers.isEmpty ∧ sheet.rows.isEmpty then 0
      else sheet.rows.length + 1
    let lastCol := sheet.headers.length
    if lastRow = 0 ∨ lastCol = 0 then
      .failure "Error: Sheet is empty, nothing to merge into"
    else
      match sheet.headers.findIdx? (fun h => jsTrim (jsToString h) = keyColumn) with
      | none => .failure "Error: Key column not found"
      | some keyColIndex =>
        if sheet.rows.length = 0 then
          .failure "Error: Sheet has headers but no data rows"
        else
          let keyMap := buildKeyMap sheet.rows keyColIndex
          let allNewKeys := collectNewKeys sheet.headers keyColumn dataArray
          let fullHeaders :=
            sheet.headers.map (fun h => jsTrim (jsToString h)) ++ allNewKeys
          let out := mergeItems keyColumn keyMap fullHeaders dataArray sheet.rows
          .ok out.1 out.2.1 allNewKeys
            { headers := sheet.headers ++ allNewKeys.map JVal.vStr
              rows := out.2.2 }

/-! ## Concrete instances used to settle the claims -/

/-- Sizes of the pages sent by a clean page-number run that stops at
page `n`, counting from page `a + 1`: every page before `n` is
delivered in full, and page `n` is delivered unless it was empty
(an empty page stops the loop before the send). -/
def deliveredFrom (pages : Nat → List JVal) (a n : Nat) : List Nat :=
  (List.range' (a + 1) (n - (a + 1))).map (fun k => (pages k).length) ++
    (if (pages n).isEmpty then [] else [(pages n).length])

/-- The simulated API of the exhaustive-run claim: items `[1..25]` in
pages of 10 (page-number mode). -/
def sim25Page (k : Nat) : List JVal :=
  (((List.range 25).map (fun i => JVal.vNum (i + 1))).drop ((k - 1) * 10)).take 10

def fetchPage25 (k : Nat) : FetchResult :=
  { success := true, status := some 200, data := .vObj [("items", .vArr (sim25Page k))] }

/-- The settled result of a page fetch whose transport failed in browser
mode: Chrome's `fetch` rejects with message `Failed to fetch`. -/
def networkFailResult : FetchResult :=
  browserFetchModel (.exception "Failed to fetch")

/-- A transport run whose first page fetch fails at the network level
and whose second page succeeds with a single item. -/
def fetchSeqC2 (k : Nat) : FetchResult :=
  if k = 2 then
    { success := true, status := some 200, data := .vObj [("items", .vArr [.vNum 1])] }
  else networkFailResult

/-- A non-429 result carrying no rate-limit headers. -/
def res200NoQuota : FetchResult :=
  { success := true, status := some 200,
    headers := [("content-type", "application/json")] }

/-- A non-429 result carrying a recognized rate-limit header. -/
def resWithQuota : FetchResult :=
  { success := true, status := some 200,
    headers := [("x-ratelimit-remaining", "42")] }

/-- What `browserFetch` returns for an HTTP 404 with a JSON error body. -/
def http404Result : FetchResult :=
  browserFetchModel (.response 404 [] (.vObj [("error", .vStr "Not Found")]))

/-- Pagination state after parsing a request whose only recognized query
parameter is `limit=10` (the size-only tentative cursor guess). -/
def sizeOnlyParsed : PaginationState :=
  handleParsePagination initPagination [("limit", "10")]

/-- A first response in which no cursor pattern resolves. -/
def noCursorBody : JVal := .vObj [("items", .vArr [.vNum 1, .vNum 2])]

/-- Existing sheet rows keyed `["a", "b"]` under header `id`. -/
def demoSheet : Sheet :=
  { headers := [.vStr "id"]
    rows := [[.vStr "a"], [.vStr "b"]] }

/-- Incoming merge data `[{id:"a",x:1},{id:"c",x:2}]`. -/
def demoData : List JVal :=
  [.vObj [("id", .vStr "a"), ("x", .vNum 1)],
   .vObj [("id", .vStr "c"), ("x", .vNum 2)]]

/-- Expected sheet after the demo merge: `x` added as a column, row `a`
enriched, row `b` untouched, and no row appended for `c`. -/
def demoMergedSheet : Sheet :=
  { headers := [.vStr "id", .vStr "x"]
    rows := [[.vStr "a", .vNum 1], [.vStr "b"]] }

/-! ## Theorems -/

/-- The per-key loop starting at index `i` visits exactly the suffix of
the id list from `i`. -/
theorem processFrom_eq_drop (idList : List String) (i : Nat) :
    processFrom idList i = idList.drop i := by
  rw [processFrom]
  split
  · rename_i h
    rw [processFrom_eq_drop idList (i + 1)]
    exact (List.drop_eq_getElem_cons h).symm
  · rename_i h
    exact (List.drop_eq_nil_of_le (Nat.le_of_not_lt h)).symm
  termination_by idList.length - i

/-- C6: resuming an EnrichmentJob at key index `i` of `n` with the key
list already cached issues no further `getIds` call and processes
exactly the keys at indices `i..n-1`. -/
theorem C6_enrichment_resume (sheetColumn cachedIdList : List String) (i : Nat)
    (h0 : 0 < i) (hle : i ≤ cachedIdList.length) :
    (startEnrichmentModel sheetColumn cachedIdList i).keyFetchCalls = 0 ∧
    (startEnrichmentModel sheetColumn cachedIdList i).processedKeys = cachedIdList.drop i ∧
    (startEnrichmentModel sheetColumn cachedIdList i).processedKeys.length =
      cachedIdList.length - i := by
  have hpos : 0 < cachedIdList.length := Nat.lt_of_lt_of_le h0 hle
  unfold startEnrichmentModel
  rw [if_pos ⟨h0, hpos⟩]
  refine ⟨rfl, processFrom_eq_drop cachedIdList i, ?_⟩
  rw [processFrom_eq_drop cachedIdList i, List.length_drop]

/-- C6 witness: cancelling at index 2 of 5 and resuming processes keys
2..4 with zero `getIds` calls. -/
theorem C6_enrichment_resume_witness :
    (startEnrichmentModel [] ["a", "b", "c", "d", "e"] 2).keyFetchCalls = 0 ∧
    (startEnrichmentModel [] ["a", "b", "c", "d", "e"] 2).processedKeys = ["c", "d", "e"] := by
  obtain ⟨h1, h2, _⟩ :=
    C6_enrichment_resume [] ["a", "b", "c", "d", "e"] 2 (by decide) (by decide)
  exact ⟨h1, h2⟩

/-- C5 counterexample: a non-429 result without rate-limit headers does
not reset the stored retry count to zero (it stays at 2). -/
theorem C5_counterexample :
    res200NoQuota.status ≠ some 429 ∧
    fetchLoopBody 2 3 res200NoQuota = LoopOutcome.done 2 ∧
    fetchLoopBody 2 3 res200NoQuota ≠ LoopOutcome.done 0 := by
  refine ⟨by decide, rfl, by decide⟩

/-- C5 (amended): after a result that is not a retried 429, the stored
`retryCount` is reset to zero exactly when the response carries
recognized rate-limit headers; otherwise it keeps its prior value. -/
theorem C5_retry_reset_needs_quota (retryCount maxRetries : Nat) (result : FetchResult)
    (h : ¬(result.status = some 429 ∧ retryCount < maxRetries)) :
    ((extractRateLimitInfo result.headers).isSome →
      fetchLoopBody retryCount maxRetries result = .done 0) ∧
    (extractRateLimitInfo result.headers = none →
      fetchLoopBody retryCount maxRetries result = .done retryCount) := by
  unfold fetchLoopBody
  rw [if_neg h]
  constructor
  · intro hq
    obtain ⟨q, hq1⟩ := Option.isSome_iff_exists.mp hq
    rw [hq1]
  · intro hq
    rw [hq]

/-- C5 witness: with an `x-ratelimit-remaining` header the retry count
resets to zero. -/
theorem C5_retry_reset_needs_quota_witness :
    fetchLoopBody 2 3 resWithQuota = LoopOutcome.done 0 :=
  (C5_retry_reset_needs_quota 2 3 resWithQuota (by decide)).1 (by decide)

/-- C2: a transport-level network failure (settled browser-fetch result
`{success:false, error:"Failed to fetch", code:"BROWSER_FETCH_ERROR"}`)
is logged but does NOT stop the bulk transport job: the error branch
tests the message text for `'Network error'`/`'BROWSER_FETCH_ERROR'`,
strings this fetcher never puts in the message.  A run whose first page
fails that way continues and delivers page 2.  Structured HTTP error
responses never even reach the error branch, since every HTTP status is
reported with `success: true`. -/
theorem C2_network_failure_does_not_stop :
    networkFailResult.success = false ∧
    networkFailResult.code = some "BROWSER_FETCH_ERROR" ∧
    (transportFetchErrorStep networkFailResult).2 = false ∧
    runTransportPage fetchSeqC2 (fun _ => none) 10 9999 =
      { pagesFetched := 2
        batchSizes := [1]
        itemsDelivered := 1
        pagesDelivered := 1
        errors := [(1, "Failed to fetch")] } ∧
    (browserFetchModel (.response 500 [] (.vObj [("message", .vStr "oops")]))).success = true := by
  exact ⟨rfl, rfl, by decide, by decide, rfl⟩

/-- C8: a per-key 404 in an EnrichmentJob is NOT taken by the benign
skip branch: both fetchers report HTTP 404 as `success: true`, so the
`if (!result.success)` guard fails and the 404 error body is flattened
and added to the merge batch instead. -/
theorem C8_404_not_skipped :
    http404Result.status = some 404 ∧
    http404Result.success = true ∧
    enrichResultStep "id" "k7" "activities" http404Result =
      .merged [("id", .vStr "k7"), ("error", .vStr "Not Found")] ∧
    enrichResultStep "id" "k7" "activities" http404Result ≠ EnrichOutcome.skip404 := by
  refine ⟨rfl, rfl, rfl, ?_⟩
  intro h
  rw [show enrichResultStep "id" "k7" "activities" http404Result =
    .merged [("id", .vStr "k7"), ("error", .vStr "Not Found")] from rfl] at h
  exact EnrichOutcome.noConfusion h

/-- C4: in every pagination state reachable through parse-time
inference, reset, navigation and response refinement, at most one of
`nextCursor` / `nextPageUrl` is set. -/
theorem C4_at_most_one_next_signal (p : PaginationState) (h : PagReachable p) :
    ¬(p.nextCursor.isSome ∧ p.nextPageUrl.isSome) := by
  induction h with
  | init => simp [initPagination]
  | reset p _ => simp [initPagination]
  | parse p params _ ih =>
    unfold handleParsePagination
    dsimp only
    repeat' split
    all_goals simp_all
  | refine p dir data u _ ih =>
    unfold executeFetchRefine
    rcases hdet : detectCursorFromResponse data with _ | ci
    · dsimp only
      split
      · try dsimp only
        split
        · split
          all_goals simp_all
        · simp_all
      · exact ih
    · dsimp only
      repeat' split
      all_goals simp_all
  | prevNav p _ ih => simpa [prevNavUpdate] using ih
  | pageNav p n _ ih => simpa using ih

/-- C4 witness: the invariant at the initial store state. -/
theorem C4_at_most_one_next_signal_witness :
    ¬(initPagination.nextCursor.isSome ∧ initPagination.nextPageUrl.isSome) :=
  C4_at_most_one_next_signal initPagination PagReachable.init

/-- A non-empty string has positive length. -/
theorem string_length_pos (s : String) (h : s ≠ "") : 0 < s.length := by
  cases s with
  | mk data =>
    cases data with
    | nil => simp at h
    | cons c cs => simp [String.length]

/-- C3: whenever `paging.next` holds a non-empty string, cursor
detection returns it as a full next-page URL with no cursor token, no
matter what other candidate fields the body holds — `paging.next` is the
first pattern of the fixed priority order — and refinement then stores
it in `nextPageUrl` while clearing `nextCursor`. -/
theorem C3_paging_next_priority (fields : List (String × JVal)) (pv : JVal) (s : String)
    (hpaging : objGet (JVal.vObj fields) "paging" = some pv)
    (hnext : objGet pv "next" = some (JVal.vStr s))
    (hs : s ≠ "") :
    detectCursorFromResponse (JVal.vObj fields) =
      some { isUrl := true, value := JVal.vStr s, path := "paging.next" } ∧
    ∀ (p : PaginationState) (dir : FetchDir) (u : String),
      (executeFetchRefine p dir (JVal.vObj fields) u).nextPageUrl = some (JVal.vStr s) ∧
      (executeFetchRefine p dir (JVal.vObj fields) u).nextCursor = none := by
  have hlen : 0 < s.length := string_length_pos s hs
  have hdet : detectCursorFromResponse (JVal.vObj fields) =
      some { isUrl := true, value := JVal.vStr s, path := "paging.next" } := by
    unfold detectCursorFromResponse CURSOR_RESPONSE_PATHS detectLoop
    rw [show walkPath (JVal.vObj fields) ["paging", "next"] = some (JVal.vStr s) by
      unfold walkPath
      rw [hpaging]
      unfold walkPath
      rw [hnext]
      rfl]
    simp [jsTruthy, hs, hlen]
    rfl
  refine ⟨hdet, ?_⟩
  intro p dir u
  unfold executeFetchRefine
  rw [hdet]
  dsimp only
  constructor
  all_goals
    split
    · rfl
    · split
      · rfl
      · rfl

/-- C3 witness: a body carrying `paging.next` alongside several other
candidate pagination fields resolves to the URL with no cursor token. -/
theorem C3_paging_next_priority_witness :
    detectCursorFromResponse (JVal.vObj
      [("paging", JVal.vObj [("next", JVal.vStr "https://api.example.com/items?page=2")]),
       ("next_cursor", JVal.vStr "tok123"),
       ("nextPageToken", JVal.vStr "tok456"),
       ("has_more", JVal.vBool true)]) =
      some { isUrl := true, value := JVal.vStr "https://api.example.com/items?page=2",
             path := "paging.next" } :=
  (C3_paging_next_priority
    [("paging", JVal.vObj [("next", JVal.vStr "https://api.example.com/items?page=2")]),
     ("next_cursor", JVal.vStr "tok123"),
     ("nextPageToken", JVal.vStr "tok456"),
     ("has_more", JVal.vBool true)]
    (JVal.vObj [("next", JVal.vStr "https://api.example.com/items?page=2")])
    "https://api.example.com/items?page=2" rfl rfl (by decide)).1

/-- C9 counterexample: after a size-only parse (tentative cursor mode)
and a first response with no resolvable cursor field, the stored mode is
still `cursor`, not `none`. -/
theorem C9_counterexample :
    sizeOnlyParsed.mode = PagMode.cursor ∧
    sizeOnlyParsed.cursorParamName = none ∧
    detectCursorFromResponse noCursorBody = none ∧
    (executeFetchRefine sizeOnlyParsed FetchDir.initial noCursorBody
      "https://api.example.com/v1/items").mode ≠ PagMode.none := by
  refine ⟨rfl, rfl, rfl, ?_⟩
  intro h
  exact PagMode.noConfusion h

/-- C9 (amended): when inference found only a page-size parameter and
tentatively chose cursor mode, a first response that resolves no cursor
pattern leaves `mode = cursor` with both next-page signals cleared — so
an exhaustive run ends after one page, but the mode field is never
switched to `none`. -/
theorem C9_size_only_guess_stays_cursor (p : PaginationState)
    (params : List (String × String)) (sz : String) (dir : FetchDir) (data : JVal)
    (u : String)
    (hcur : (params.map Prod.fst).find? (fun k => CURSOR_PARAM_NAMES.contains k) = none)
    (hpage : (params.map Prod.fst).find? (fun k => PAGE_PARAM_NAMES.contains k) = none)
    (hoff : (params.map Prod.fst).find? (fun k => OFFSET_PARAM_NAMES.contains k) = none)
    (hsize : (params.map Prod.fst).find? (fun k => PER_PAGE_PARAM_NAMES.contains k) = some sz)
    (hdet : detectCursorFromResponse data = none) :
    (executeFetchRefine (handleParsePagination p params) dir data u).mode = PagMode.cursor ∧
    (executeFetchRefine (handleParsePagination p params) dir data u).nextCursor = none ∧
    (executeFetchRefine (handleParsePagination p params) dir data u).nextPageUrl = none := by
  have hparse : handleParsePagination p params =
      { p with
        mode := .cursor
        perPageParamName := sz
        perPage := jsParseIntOr (lookupParam params sz) 10
        hasDetected := true
        currentPage := 1
        nextCursor := none
        prevCursors := []
        cursorParamName := none
        nextPageUrl := none } := by
    unfold handleParsePagination
    simp only [hcur, hpage, hoff, hsize]
  rw [hparse]
  unfold executeFetchRefine
  rw [hdet]
  dsimp only [currentEntryOpt]
  refine ⟨?_, ?_, ?_⟩
  all_goals repeat' split
  all_goals rfl

/-- C9 amended-claim witness at the concrete size-only request. -/
theorem C9_size_only_guess_stays_cursor_witness :
    (executeFetchRefine (handleParsePagination initPagination [("limit", "10")])
      FetchDir.initial noCursorBody "u").mode = PagMode.cursor :=
  (C9_size_only_guess_stays_cursor initPagination [("limit", "10")] "limit"
    FetchDir.initial noCursorBody "u" rfl rfl rfl rfl rfl).1

mutual
/-- No `null`/`undefined` survives in what one field contributes. -/
theorem flattenValue_no_null (fullKey : String) (v : JVal) :
    ∀ p ∈ flattenValue fullKey v, p.2 ≠ JVal.vNull ∧ p.2 ≠ JVal.vUndef := by
  match v with
  | .vArr xs =>
    intro p hp
    simp only [flattenValue, List.mem_cons, List.mem_singleton, List.not_mem_nil,
      or_false] at hp
    rcases hp with h | h <;> simp [h]
  | .vObj fs => exact flattenFields_no_null fs fullKey
  | .vNull =>
    intro p hp
    simp only [flattenValue, List.mem_singleton] at hp
    simp [hp]
  | .vUndef =>
    intro p hp
    simp only [flattenValue, List.mem_singleton] at hp
    simp [hp]
  | .vBool b =>
    intro p hp
    simp only [flattenValue, List.mem_singleton] at hp
    simp [hp]
  | .vNum n =>
    intro p hp
    simp only [flattenValue, List.mem_singleton] at hp
    simp [hp]
  | .vStr s =>
    intro p hp
    simp only [flattenValue, List.mem_singleton] at hp
    simp [hp]

/-- No `null`/`undefined` survives in a flattened field list. -/
theorem flattenFields_no_null (fields : List (String × JVal)) (pfx : String) :
    ∀ p ∈ flattenFields fields pfx, p.2 ≠ JVal.vNull ∧ p.2 ≠ JVal.vUndef := by
  match fields with
  | [] =>
    intro p hp
    simp [flattenFields] at hp
  | (key, value) :: rest =>
    intro p hp
    rw [flattenFields] at hp
    rcases List.mem_append.mp hp with h | h
    · exact flattenValue_no_null (joinKey pfx key) value p h
    · exact flattenFields_no_null rest pfx p h
end

/-- C10: a flattened row contains no `null` and no `undefined` cell:
null/undefined leaves become `''`, nested non-Date objects recurse into
dot-joined keys, and an array-valued field at key `k` contributes
exactly `k_count` (the length) and `k` (the JSON-encoded array). -/
theorem C10_flatten_row_shape :
    (∀ (v : JVal) (pfx : String) (p : String × JVal), p ∈ flattenObject v pfx →
      p.2 ≠ JVal.vNull ∧ p.2 ≠ JVal.vUndef) ∧
    (∀ (key : String) (xs : List JVal) (rest : List (String × JVal)) (pfx : String),
      flattenFields ((key, JVal.vArr xs) :: rest) pfx =
        (joinKey pfx key ++ "_count", JVal.vNum xs.length) ::
        (joinKey pfx key, JVal.vStr (jsonStringify (JVal.vArr xs))) ::
        flattenFields rest pfx) ∧
    (∀ (key : String) (fs rest : List (String × JVal)) (pfx : String),
      flattenFields ((key, JVal.vObj fs) :: rest) pfx =
        flattenFields fs (joinKey pfx key) ++ flattenFields rest pfx) ∧
    (∀ (key : String) (rest : List (String × JVal)) (pfx : String),
      flattenFields ((key, JVal.vNull) :: rest) pfx =
        (joinKey pfx key, JVal.vStr "") :: flattenFields rest pfx ∧
      flattenFields ((key, JVal.vUndef) :: rest) pfx =
        (joinKey pfx key, JVal.vStr "") :: flattenFields rest pfx) := by
  refine ⟨?_, ?_, ?_, ?_⟩
  · intro v pfx p hp
    match v with
    | .vObj fields => exact flattenFields_no_null fields pfx p hp
    | .vArr elems => exact flattenFields_no_null (enumFields elems) pfx p hp
    | .vNull => simp [flattenObject] at hp
    | .vUndef => simp [flattenObject] at hp
    | .vBool b => simp [flattenObject] at hp
    | .vNum n => simp [flattenObject] at hp
    | .vStr s => simp [flattenObject] at hp
  · intro key xs rest pfx
    rw [flattenFields]
    rfl
  · intro key fs rest pfx
    rw [flattenFields]
    rfl
  · intro key rest pfx
    exact ⟨by rw [flattenFields]; rfl, by rw [flattenFields]; rfl⟩

/-- C10 witness: the no-null invariant applied to a flattened row with a
null leaf. -/
theorem C10_flatten_row_shape_witness :
    (("missing", JVal.vStr "") : String × JVal).2 ≠ JVal.vNull ∧
    (("missing", JVal.vStr "") : String × JVal).2 ≠ JVal.vUndef :=
  C10_flatten_row_shape.1 (JVal.vObj [("missing", JVal.vNull)]) ""
    ("missing", JVal.vStr "") (List.mem_singleton.mpr rfl)

/-- Unfolding step of `deliveredFrom` across a full middle page. -/
theorem deliveredFrom_step (pages : Nat → List JVal) (a n : Nat) (h : a + 1 < n) :
    deliveredFrom pages a n = (pages (a + 1)).length :: deliveredFrom pages (a + 1) n := by
  unfold deliveredFrom
  have h2 : n - (a + 1) = (n - (a + 2)) + 1 := by omega
  rw [h2, List.range'_succ]
  simp

/-- `deliveredFrom` at the final page. -/
theorem deliveredFrom_last (pages : Nat → List JVal) (a n : Nat) (h : a + 1 = n) :
    deliveredFrom pages a n = if (pages n).isEmpty then [] else [(pages n).length] := by
  unfold deliveredFrom
  have h2 : n - (a + 1) = 0 := by omega
  rw [h2]
  simp

/-- Characterization of a clean page-number transport run: with every
fetch up to page `n` succeeding, the sink accepting every batch, every
page before `n` full (at least `perPage` items, non-empty) and page `n`
empty or short, the loop fetches exactly pages `pageNum+1 .. n` and
accumulates exactly their batches. -/
theorem transportGo_clean (pages : Nat → List JVal) (fetchPage : Nat → FetchResult)
    (sink : List JVal → Option String) (perPage n : Nat)
    (hfetch : ∀ k, 1 ≤ k → k ≤ n → (fetchPage k).success = true ∧
      extractDataArray (fetchPage k).data = some (pages k))
    (hsink : ∀ items, sink items = none)
    (hbefore : ∀ k, 1 ≤ k → k < n →
      (pages k).isEmpty = false ∧ perPage ≤ (pages k).length)
    (hstop : (pages n).isEmpty = true ∨ (pages n).length < perPage) :
    ∀ (fuel pageNum : Nat) (st : TransportState), pageNum < n → n ≤ pageNum + fuel →
    transportGo fetchPage sink perPage fuel pageNum st =
      { pagesFetched := n
        batchSizes := st.batchSizes ++ deliveredFrom pages pageNum n
        itemsDelivered := st.itemsDelivered + (deliveredFrom pages pageNum n).sum
        pagesDelivered := st.pagesDelivered + (deliveredFrom pages pageNum n).length
        errors := st.errors } := by
  intro fuel
  induction fuel with
  | zero =>
    intro pageNum st h1 h2
    omega
  | succ fuel ih =>
    intro pageNum st h1 h2
    obtain ⟨hsucc, hex⟩ := hfetch (pageNum + 1) (by omega) (by omega)
    rcases Nat.lt_or_ge (pageNum + 1) n with hlt | hge
    · -- a full middle page: deliver and continue
      obtain ⟨hne, hlen⟩ := hbefore (pageNum + 1) (by omega) hlt
      cases hpg : pages (pageNum + 1) with
      | nil => rw [hpg] at hne; simp at hne
      | cons x xs =>
        rw [hpg] at hex hlen
        have hnotlt : ¬((x :: xs).length < perPage) := by omega
        rw [transportGo]
        simp only [hsucc, hex, hsink, Bool.true_eq_false, if_false, hnotlt, ite_false,
          if_neg hnotlt]
        rw [ih (pageNum + 1) _ hlt (by omega)]
        rw [deliveredFrom_step pages pageNum n hlt, hpg]
        simp [TransportState.mk.injEq]
        omega
    · -- the stopping page n
      have hn1 : pageNum + 1 = n := by omega
      subst hn1
      cases hpg : pages (pageNum + 1) with
      | nil =>
        -- empty final page: stop before sending
        rw [hpg] at hex
        rw [transportGo]
        simp only [hsucc, hex, Bool.true_eq_false, if_false]
        rw [deliveredFrom_last pages pageNum (pageNum + 1) rfl]
        simp [hpg]
      | cons x xs =>
        -- short final page: deliver, then stop
        have hlt2 : (pages (pageNum + 1)).length < perPage := by
          rcases hstop with hemp | h
          · rw [hpg] at hemp; simp at hemp
          · exact h
        rw [hpg] at hex hlt2
        rw [transportGo]
        simp only [hsucc, hex, hsink, Bool.true_eq_false, if_false, if_pos hlt2]
        rw [deliveredFrom_last pages pageNum (pageNum + 1) rfl]
        simp [hpg]

/-- C1: a page-number-mode BulkTransportJob run with all fetches and
sink writes succeeding terminates exactly at the first page `n` that is
empty or yields strictly fewer than `itemsPerPage` items, fetching
exactly `n` pages and delivering exactly the batches of pages `1..n`
(page `n` excluded when empty) in order; in particular, against the
simulated API serving `[1..25]` in page-number mode with
`itemsPerPage = 10`, the exhaustive (`'all'`, `maxPages = 9999`) run
fetches exactly 3 pages, delivers batches `[10, 10, 5]` in that order,
and finishes with 25 items delivered. -/
theorem C1_exhaustive_page_run :
    (∀ (pages : Nat → List JVal) (fetchPage : Nat → FetchResult)
      (sink : List JVal → Option String) (perPage maxPages n : Nat),
      1 ≤ n → n ≤ maxPages →
      (∀ k, 1 ≤ k → k ≤ n → (fetchPage k).success = true ∧
        extractDataArray (fetchPage k).data = some (pages k)) →
      (∀ items, sink items = none) →
      (∀ k, 1 ≤ k → k < n →
        (pages k).isEmpty = false ∧ perPage ≤ (pages k).length) →
      ((pages n).isEmpty = true ∨ (pages n).length < perPage) →
      runTransportPage fetchPage sink perPage maxPages =
        { pagesFetched := n
          batchSizes := deliveredFrom pages 0 n
          itemsDelivered := (deliveredFrom pages 0 n).sum
          pagesDelivered := (deliveredFrom pages 0 n).length
          errors := [] }) ∧
    runTransportPage fetchPage25 (fun _ => none) 10 9999 =
      { pagesFetched := 3
        batchSizes := [10, 10, 5]
        itemsDelivered := 25
        pagesDelivered := 3
        errors := [] } := by
  have general : ∀ (pages : Nat → List JVal) (fetchPage : Nat → FetchResult)
      (sink : List JVal → Option String) (perPage maxPages n : Nat),
      1 ≤ n → n ≤ maxPages →
      (∀ k, 1 ≤ k → k ≤ n → (fetchPage k).success = true ∧
        extractDataArray (fetchPage k).data = some (pages k)) →
      (∀ items, sink items = none) →
      (∀ k, 1 ≤ k → k < n →
        (pages k).isEmpty = false ∧ perPage ≤ (pages k).length) →
      ((pages n).isEmpty = true ∨ (pages n).length < perPage) →
      runTransportPage fetchPage sink perPage maxPages =
        { pagesFetched := n
          batchSizes := deliveredFrom pages 0 n
          itemsDelivered := (deliveredFrom pages 0 n).sum
          pagesDelivered := (deliveredFrom pages 0 n).length
          errors := [] } := by
    intro pages fetchPage sink perPage maxPages n hn hmax hfetch hsink hbefore hstop
    have h := transportGo_clean pages fetchPage sink perPage n hfetch hsink hbefore hstop
      maxPages 0 initTransportState (by omega) (by omega)
    simpa [runTransportPage, initTransportState] using h
  refine ⟨general, ?_⟩
  rw [general sim25Page fetchPage25 (fun _ => none) 10 9999 3
    (by decide) (by decide)
    (by intro k h1 h3; interval_cases k <;> exact ⟨rfl, rfl⟩)
    (fun _ => rfl)
    (by intro k h1 h3; interval_cases k <;> exact ⟨by decide, by decide⟩)
    (Or.inr (by decide))]
  decide

/-- C1 witness: the general run characterization instantiated at the
simulated 25-item API. -/
theorem C1_exhaustive_page_run_witness :
    runTransportPage fetchPage25 (fun _ => none) 10 9999 =
      { pagesFetched := 3
        batchSizes := [10, 10, 5]
        itemsDelivered := 25
        pagesDelivered := 3
        errors := [] } := by
  rw [C1_exhaustive_page_run.1 sim25Page fetchPage25 (fun _ => none) 10 9999 3
    (by decide) (by decide)
    (by intro k h1 h3; interval_cases k <;> exact ⟨rfl, rfl⟩)
    (fun _ => rfl)
    (by intro k h1 h3; interval_cases k <;> exact ⟨by decide, by decide⟩)
    (Or.inr (by decide))]
  decide

/-- A single in-place cell write never changes the number of rows. -/
theorem updateRows_length (rows : List (List JVal)) (r c : Nat) (v : JVal) :
    (updateRows rows r c v).length = rows.length := by
  induction rows generalizing r with
  | nil => simp [updateRows]
  | cons row rest ih =>
    cases r with
    | zero => simp [updateRows]
    | succ r1 => simp [updateRows, ih]

/-- Writing a matched item's fields never changes the number of rows. -/
theorem writeFields_length (fields : List (String × JVal)) (kc : String)
    (fh : List String) (ri : Nat) (rows : List (List JVal)) :
    (writeFields fields kc fh ri rows).length = rows.length := by
  induction fields generalizing rows with
  | nil => simp [writeFields]
  | cons kv rest ih =>
    obtain ⟨k, v⟩ := kv
    rw [writeFields]
    split
    · exact ih rows
    · split
      · exact ih rows
      · rw [ih, updateRows_length]

/-- The item loop preserves the row count, and every object item is
counted exactly once as matched or not-found. -/
theorem mergeItems_len_count (kc : String) (km : List (String × Nat)) (fh : List String) :
    ∀ (items : List JVal) (rows : List (List JVal)),
      (mergeItems kc km fh items rows).2.2.length = rows.length ∧
      (mergeItems kc km fh items rows).1 + (mergeItems kc km fh items rows).2.1 =
        (items.filter (fun it => (objEntries it).isSome)).length := by
  intro items
  induction items with
  | nil =>
    intro rows
    simp [mergeItems]
  | cons item rest ih =>
    intro rows
    rw [mergeItems]
    cases hobj : objEntries item with
    | none =>
      have hf : List.filter (fun it => (objEntries it).isSome) (item :: rest) =
          List.filter (fun it => (objEntries it).isSome) rest := by
        simp [List.filter_cons, hobj]
      rw [hf]
      exact ih rows
    | some fields =>
      have hf : List.filter (fun it => (objEntries it).isSome) (item :: rest) =
          item :: List.filter (fun it => (objEntries it).isSome) rest := by
        simp [List.filter_cons, hobj]
      rw [hf]
      dsimp only
      cases hlk : km.lookup (jsTrim (itemKeyString fields kc)) with
      | none =>
        have h := ih rows
        dsimp only [List.length_cons]
        exact ⟨h.1, by omega⟩
      | some rowIndex =>
        have hw := writeFields_length fields kc fh rowIndex rows
        have h := ih (writeFields fields kc fh rowIndex rows)
        dsimp only [List.length_cons]
        exact ⟨h.1.trans hw, by omega⟩

/-- C7: a merge-mode sink write counts every incoming object item either
as matched (its fields written into the existing row) or as not-found,
and never appends a row; at the concrete instance of the claim, rows
keyed `["a","b"]` merged with `[{id:"a",x:1},{id:"c",x:2}]` report 1
matched and 1 not-found, column `x` is added, row `a` gains only its
present field, row `b` is untouched, and no row is added for `c`. -/
theorem C7_merge_by_key :
    (∀ (sheet : Sheet) (dataArray : List JVal) (keyColumn : String)
      (m nf : Nat) (newKeys : List String) (sheet2 : Sheet),
      mergeData sheet dataArray keyColumn = .ok m nf newKeys sheet2 →
      sheet2.rows.length = sheet.rows.length ∧
      m + nf = (dataArray.filter (fun it => (objEntries it).isSome)).length) ∧
    mergeData demoSheet demoData "id" = .ok 1 1 ["x"] demoMergedSheet := by
  constructor
  · intro sheet dataArray keyColumn m nf newKeys sheet2 h
    simp only [mergeData] at h
    repeat' split at h
    all_goals first
      | (injection h with hm hnf hk hs
         subst hm
         subst hnf
         subst hs
         exact ⟨(mergeItems_len_count keyColumn _ _ dataArray sheet.rows).1,
                (mergeItems_len_count keyColumn _ _ dataArray sheet.rows).2⟩)
      | simp at h
  · rfl

/-- C7 witness: the general count/row-preservation facts instantiated at
the demo merge. -/
theorem C7_merge_by_key_witness :
    demoMergedSheet.rows.length = demoSheet.rows.length ∧
    1 + 1 = (demoData.filter (fun it => (objEntries it).isSome)).length :=
  C7_merge_by_key.1 demoSheet demoData "id" 1 1 ["x"] demoMergedSheet (by rfl)

end Switchboard
